import Mathlib

/-!
Verification of the UserService session/authentication core
(src/src/middleware/SessionManager.js) against its specification.

The source is embedded shallowly: the Express request/response cycle is
modelled as explicit state passing over a `ConnState` (the session record
held in the SessionStore for the client's cookie, plus whether the response
cookie has been cleared), throwing JS code is modelled with `Except`, and
the external user collaborator (the `User` model backed by the database) is
a list of user rows passed explicitly.
-/

namespace UserService

/-- A user row held by the external user collaborator (`User.UserObject`). -/
structure UserObject where
  id : Nat
  email : String
  firstName : String
  lastName : String
  deriving DecidableEq, Repr

/-- The external user collaborator's table of users. -/
abbrev UserDB := List UserObject

/-- `User.Load(id)`: resolve a user id against the collaborator
(found / not-found). -/
def dbLoad (db : UserDB) (uid : Nat) : Option UserObject :=
  db.find? (fun u => u.id == uid)

/-- `User.Load` on a JS number that may be negative (the route handlers call
it with a `parseInt` result). -/
def dbLoadInt (db : UserDB) (uid : Int) : Option UserObject :=
  db.find? (fun u => (u.id : Int) == uid)

/-- `User.Create(email, firstName, lastName, password)`: ok with the fresh
row (the collaborator assigns `newId`), or conflict (`none`) when an account
with that email already exists. -/
def dbCreate (db : UserDB) (email firstName lastName : String) (newId : Nat) :
    Option (UserDB × UserObject) :=
  if db.any (fun u => u.email == email) then none
  else
    let u : UserObject := ⟨newId, email, firstName, lastName⟩
    some (db ++ [u], u)

/-- `User.Delete(id)`: remove the row if present, returning it
(found / not-found). -/
def dbDelete (db : UserDB) (uid : Int) : Option (UserDB × UserObject) :=
  match db.find? (fun u => (u.id : Int) == uid) with
  | none => none
  | some u => some (db.filter (fun v => !((v.id : Int) == uid)), u)

/-- Cookie policy fields of a session (`req.session.cookie`); `maxAge = none`
is a browser-session cookie (no explicit expiry). -/
structure Cookie where
  maxAge : Option Nat
  deriving DecidableEq, Repr

/-- A session record: the optional bound identity (`req.session.user_id`)
and the cookie policy. -/
structure Session where
  user_id : Option Nat
  cookie : Cookie
  deriving DecidableEq, Repr

/-- The fresh, anonymous session the middleware creates when the client's
cookie names no stored session. -/
def emptySession : Session := { user_id := none, cookie := { maxAge := none } }

/-- Request-cycle state for one client: the session record the SessionStore
holds under the client's cookie (`none` = absent/destroyed) and whether the
response cookie has been cleared. -/
structure ConnState where
  store : Option Session
  cookieCleared : Bool
  deriving DecidableEq, Repr

/-- The session the middleware attaches to the request: the stored record,
or a fresh empty session when none is stored. -/
def attachSession (c : ConnState) : Session :=
  c.store.getD emptySession

/-- Modelled from the spec: `DeleteSession(req, res)` (imported from
`Helpers.js`, not under src/) destroys the session — "remove it from
SessionStore and clear the response cookie". -/
def DeleteSession (c : ConnState) : ConnState :=
  { c with store := none, cookieCleared := true }

/-- The message of the error `_LoadLoggedInUser` throws on a stale session. -/
def staleMsg : String := "stale user session deleted, please try again"

/-- `_LoadLoggedInUser(req, res)`: if the session has a `user_id`, load that
user from the collaborator; on a miss (stale session) delete the session and
throw; otherwise return the user or `null`. The thrown error is the
`Except.error` branch; the returned value (`user` or `null`) is `Except.ok`. -/
def _LoadLoggedInUser (db : UserDB) (c : ConnState) :
    Except String (Option UserObject) × ConnState :=
  match (attachSession c).user_id with
  | none => (Except.ok none, c)
  | some uid =>
    match dbLoad db uid with
    | some u => (Except.ok (some u), c)
    | none => (Except.error staleMsg, DeleteSession c)

/-- JSON bodies the route handlers produce. -/
inductive Body where
  | userJson : UserObject → Body
  | messageJson : String → Body
  | empty : Body
  deriving DecidableEq, Repr

/-- Outcome of one Express handler: a response with status and body, or the
`catch (err) { next(err) }` path forwarding a thrown error. -/
inductive HandlerResult where
  | response : Nat → Body → HandlerResult
  | nextErr : String → HandlerResult
  deriving DecidableEq, Repr

/-- `GET /user` (`GetUser`): 200 with the user's identity JSON when a user
is resolved, 202 with a message object when anonymous; a thrown error goes
to `next(err)`. -/
def GetUser (db : UserDB) (c : ConnState) : HandlerResult × ConnState :=
  match _LoadLoggedInUser db c with
  | (Except.ok (some u), c') => (HandlerResult.response 200 (Body.userJson u), c')
  | (Except.ok none, c') =>
      (HandlerResult.response 202 (Body.messageJson "user not logged in"), c')
  | (Except.error e, c') => (HandlerResult.nextErr e, c')

/-- The signup request body of `POST /users`. -/
structure SignupBody where
  firstName : String
  lastName : String
  email : String
  password : String
  rememberMe : Bool
  deriving DecidableEq, Repr

/-- The part of `Config.server.session` used by `CreateUser`: the
remember-me duration in days (`maxAgeDays`). -/
structure SessionConfig where
  maxAgeDays : Nat
  deriving DecidableEq, Repr

/-- `POST /users` (`CreateUser`): validate the request (the external
`SignupRequest.validateRequest` result is passed in as `validationError`),
load the calling user, attempt `User.Create`; on success, bind the session
and apply remember-me only when no user was already logged in, and respond
201; respond 409 on conflict, 400 on invalid input. Returns the handler
outcome, the collaborator's table after the call, and the connection
state after the call. -/
def CreateUser (cfg : SessionConfig) (db : UserDB) (validationError : Option String)
    (body : SignupBody) (newId : Nat) (c : ConnState) :
    HandlerResult × UserDB × ConnState :=
  match validationError with
  | some m => (HandlerResult.response 400 (Body.messageJson m), db, c)
  | none =>
    match _LoadLoggedInUser db c with
    | (Except.error e, c') => (HandlerResult.nextErr e, db, c')
    | (Except.ok callingUser, c') =>
      match dbCreate db body.email body.firstName body.lastName newId with
      | none =>
          (HandlerResult.response 409 (Body.messageJson "user already exists"),
            db, c')
      | some (db', u) =>
        match callingUser with
        | some _ => (HandlerResult.response 201 (Body.userJson u), db', c')
        | none =>
          let s := attachSession c'
          let s := { s with user_id := some u.id }
          let s :=
            if body.rememberMe then
              { s with cookie :=
                  { s.cookie with
                      maxAge := some (cfg.maxAgeDays * 24 * 60 * 60 * 1000) } }
            else s
          (HandlerResult.response 201 (Body.userJson u), db',
            { c' with store := some s })

/-- Drop the leading whitespace of a JS string (as `parseInt` does). -/
def skipWs : List Char → List Char
  | [] => []
  | ch :: cs =>
    if ch = ' ' ∨ ch = '\t' ∨ ch = '\n' ∨ ch = '\r' then skipWs cs else ch :: cs

/-- Value of a hexadecimal digit character, if it is one. -/
def hexVal (ch : Char) : Option Nat :=
  if '0' ≤ ch ∧ ch ≤ '9' then some (ch.toNat - '0'.toNat)
  else if 'a' ≤ ch ∧ ch ≤ 'f' then some (ch.toNat - 'a'.toNat + 10)
  else if 'A' ≤ ch ∧ ch ≤ 'F' then some (ch.toNat - 'A'.toNat + 10)
  else none

/-- Value of a digit character in the given radix, if it is one. -/
def digitVal (radix : Nat) (ch : Char) : Option Nat :=
  match hexVal ch with
  | some v => if v < radix then some v else none
  | none => none

/-- Accumulate the longest prefix of radix digits, ignoring the rest of the
string (as JS `parseInt` does). -/
def parseDigitsAux (radix : Nat) (acc : Nat) : List Char → Nat
  | [] => acc
  | ch :: cs =>
    match digitVal radix ch with
    | some v => parseDigitsAux radix (acc * radix + v) cs
    | none => acc

/-- Parse the digit prefix; `none` (NaN) when no digit leads. -/
def parseIntCore (radix : Nat) : List Char → Option Nat
  | [] => none
  | ch :: cs =>
    match digitVal radix ch with
    | none => none
    | some v => some (parseDigitsAux radix v cs)

/-- JS `parseInt(s)` with no radix argument: skip whitespace, take an
optional sign, detect a `0x`/`0X` hexadecimal prefix, then read the longest
digit prefix, ignoring any trailing garbage; `none` models `NaN`. -/
def parseIntJS (s : String) : Option Int :=
  let cs := skipWs s.data
  let signed : Int × List Char :=
    match cs with
    | '-' :: rest => (-1, rest)
    | '+' :: rest => (1, rest)
    | _ => (1, cs)
  let based : Nat × List Char :=
    match signed.2 with
    | '0' :: 'x' :: rest => (16, rest)
    | '0' :: 'X' :: rest => (16, rest)
    | _ => (10, signed.2)
  match parseIntCore based.1 based.2 with
  | none => none
  | some n => some (signed.1 * n)

/-- Modelled from the spec: `Validation.ValidateNumber` (from
`src/shared/Validation.js`, not under src/) flags malformed ids — per the
spec's "400 on malformed id" and "ValidationError — malformed input
identifiers", it returns an error message exactly when its argument is not
a number (`NaN`, here `none`). -/
def ValidateNumber : Option Int → Option String
  | none => some "invalid number"
  | some _ => none

/-- `User.Load` applied to a JS number that may be `NaN`; `NaN` compares
equal to nothing, so the lookup misses. -/
def dbLoadNum (db : UserDB) : Option Int → Option UserObject
  | none => none
  | some n => dbLoadInt db n

/-- `User.Delete` applied to a JS number that may be `NaN`. -/
def dbDeleteNum (db : UserDB) : Option Int → Option (UserDB × UserObject)
  | none => none
  | some n => dbDelete db n

/-- `GET /user/:id` (`GetUserById`): 401 without a resolved identity, then
`parseInt` the id parameter and 400 when `ValidateNumber` rejects it, then
404 when the target id is absent, else 200 with the target user. -/
def GetUserById (db : UserDB) (idParam : String) (c : ConnState) :
    HandlerResult × ConnState :=
  match _LoadLoggedInUser db c with
  | (Except.error e, c') => (HandlerResult.nextErr e, c')
  | (Except.ok none, c') =>
      (HandlerResult.response 401 (Body.messageJson "logged in user required"), c')
  | (Except.ok (some _), c') =>
    let idv := parseIntJS idParam
    match ValidateNumber idv with
    | some errmsg => (HandlerResult.response 400 (Body.messageJson errmsg), c')
    | none =>
      match dbLoadNum db idv with
      | none => (HandlerResult.response 404 Body.empty, c')
      | some u => (HandlerResult.response 200 (Body.userJson u), c')

/-- `DELETE /user/:id` (`DeleteUserById`): 401 without a resolved identity,
400 when `ValidateNumber` rejects the parsed id, 404 when the target id is
absent, else delete and 200 with the deleted user. Returns the outcome, the
collaborator's table after the call and the connection state. -/
def DeleteUserById (db : UserDB) (idParam : String) (c : ConnState) :
    HandlerResult × UserDB × ConnState :=
  match _LoadLoggedInUser db c with
  | (Except.error e, c') => (HandlerResult.nextErr e, db, c')
  | (Except.ok none, c') =>
      (HandlerResult.response 401 (Body.messageJson "logged in user required"),
        db, c')
  | (Except.ok (some _), c') =>
    let idv := parseIntJS idParam
    match ValidateNumber idv with
    | some errmsg => (HandlerResult.response 400 (Body.messageJson errmsg), db, c')
    | none =>
      match dbDeleteNum db idv with
      | none => (HandlerResult.response 404 Body.empty, db, c')
      | some (db', u) => (HandlerResult.response 200 (Body.userJson u), db', c')

/-- The store types `_createStore` recognises
(`Config.server.sessionStore.type`). -/
inductive StoreType where
  | memorystore
  | redis
  deriving DecidableEq, Repr

/-- Construction state of a `SessionManager` instance: which of its fields
have been assigned so far. -/
structure SMState where
  sessionConfigSet : Bool
  store : Option StoreType
  middlewareSet : Bool
  deriving DecidableEq, Repr

/-- The identifiers bound in the module scope of `SessionManager.js`: its
imports (`session`, `mstore`, `Config`, `GetModuleLogger`, `redis`,
`connectRedis`), its module-level consts (`log`, `MemoryStore`) and the
class binding itself. A bare identifier inside a method body resolves
against this lexical scope — JS class methods are not part of it. -/
def sessionManagerModuleScope : List String :=
  ["session", "mstore", "Config", "GetModuleLogger", "redis", "connectRedis",
   "log", "MemoryStore", "SessionManager"]

/-- The `_createStore` instance method: builds the configured store
(memorystore or redis) and assigns `this.store`. It is reachable only via a
property access such as `this._createStore()`. -/
def _createStore (ty : StoreType) (st : SMState) : SMState :=
  { st with store := some ty }

/-- The `SessionManager` constructor: assigns `this.sessionConfig`, then
evaluates the bare call `_createStore()`. The callee is a plain identifier,
resolved against the lexical (module) scope; when it resolves to nothing
the call throws a `ReferenceError`, ending construction with the state
reached so far (carried on the error). -/
def SessionManagerConstructor (ty : StoreType) : Except (String × SMState) SMState :=
  let st : SMState :=
    { sessionConfigSet := true, store := none, middlewareSet := false }
  if sessionManagerModuleScope.contains "_createStore" then
    Except.ok { _createStore ty st with middlewareSet := true }
  else
    Except.error ("ReferenceError: _createStore is not defined", st)

end UserService

namespace UserService

/-- Helper: on a session with no bound `user_id`, the resolver returns
`ok none` and leaves the state untouched. -/
theorem load_eq_of_anon (db : UserDB) (c : ConnState)
    (h : (attachSession c).user_id = none) :
    _LoadLoggedInUser db c = (Except.ok none, c) := by
  simp [_LoadLoggedInUser, h]

/-- Helper: on a session bound to a resolvable `user_id`, the resolver
returns that user and leaves the state untouched. -/
theorem load_eq_of_found (db : UserDB) (c : ConnState) (uid : Nat) (u : UserObject)
    (hb : (attachSession c).user_id = some uid)
    (hf : dbLoad db uid = some u) :
    _LoadLoggedInUser db c = (Except.ok (some u), c) := by
  simp [_LoadLoggedInUser, hb, hf]

/-- Helper: on a session bound to an unresolvable `user_id`, the resolver
throws and deletes the session. -/
theorem load_eq_of_stale (db : UserDB) (c : ConnState) (uid : Nat)
    (hb : (attachSession c).user_id = some uid)
    (hm : dbLoad db uid = none) :
    _LoadLoggedInUser db c = (Except.error staleMsg, DeleteSession c) := by
  simp [_LoadLoggedInUser, hb, hm]

/-- Helper: looking up a freshly appended row whose id is new finds it. -/
theorem dbLoad_append_fresh (db : UserDB) (u : UserObject)
    (h : ∀ v ∈ db, v.id ≠ u.id) :
    dbLoad (db ++ [u]) u.id = some u := by
  induction db with
  | nil => simp [dbLoad]
  | cons a l ih =>
    have ha : ¬ (a.id = u.id) := h a (List.mem_cons_self a l)
    have hl : ∀ v ∈ l, v.id ≠ u.id := fun v hv => h v (List.mem_cons_of_mem a hv)
    simpa [dbLoad, List.find?_cons, ha] using ih hl

/-- Helper: `dbDelete` finds exactly the rows `dbLoadInt` finds. -/
theorem dbDelete_eq_map (db : UserDB) (n : Int) :
    dbDelete db n =
      (dbLoadInt db n).map
        (fun u => (db.filter (fun v => !((v.id : Int) == n)), u)) := by
  cases h : List.find? (fun u => (u.id : Int) == n) db with
  | none => simp [dbDelete, dbLoadInt, h]
  | some u => simp [dbDelete, dbLoadInt, h]

/-- C1: for every session bound to a `user_id` the collaborator cannot
resolve, `_LoadLoggedInUser` destroys the session (store entry removed,
response cookie cleared) and signals a failure distinguishable from the
anonymous result: it never returns this case as an `ok` value at all. -/
theorem loadLoggedInUser_stale_destroys_and_fails
    (db : UserDB) (c : ConnState) (uid : Nat)
    (hbound : (attachSession c).user_id = some uid)
    (hmiss : dbLoad db uid = none) :
    (_LoadLoggedInUser db c).1 = Except.error staleMsg ∧
    (_LoadLoggedInUser db c).2.store = none ∧
    (_LoadLoggedInUser db c).2.cookieCleared = true ∧
    ∀ x : Option UserObject, (_LoadLoggedInUser db c).1 ≠ Except.ok x := by
  simp [_LoadLoggedInUser, hbound, hmiss, DeleteSession]

/-- Witness for C1 at a concrete stale state: session bound to uid 42,
empty collaborator. -/
theorem loadLoggedInUser_stale_destroys_and_fails_witness :
    let c : ConnState :=
      { store := some { user_id := some 42, cookie := { maxAge := none } },
        cookieCleared := false }
    (_LoadLoggedInUser [] c).1 = Except.error staleMsg ∧
    (_LoadLoggedInUser [] c).2.store = none ∧
    (_LoadLoggedInUser [] c).2.cookieCleared = true ∧
    ∀ x : Option UserObject, (_LoadLoggedInUser [] c).1 ≠ Except.ok x :=
  loadLoggedInUser_stale_destroys_and_fails [] _ 42 (by rfl) (by rfl)

/-- C2: for every session with no bound `user_id`, `_LoadLoggedInUser`
returns no user (`ok none`) and never raises any failure signal; the state
is untouched. -/
theorem loadLoggedInUser_anonymous_ok
    (db : UserDB) (c : ConnState)
    (hanon : (attachSession c).user_id = none) :
    _LoadLoggedInUser db c = (Except.ok none, c) := by
  simp [_LoadLoggedInUser, hanon]

/-- Witness for C2 at a concrete anonymous state (no stored session). -/
theorem loadLoggedInUser_anonymous_ok_witness :
    _LoadLoggedInUser [⟨1, "a@x.com", "A", "B"⟩]
        { store := none, cookieCleared := false } =
      (Except.ok none, { store := none, cookieCleared := false }) :=
  loadLoggedInUser_anonymous_ok _ _ (by rfl)

/-- C3: on a stale session the destruction is signalled exactly once per
call (the call itself errors), and a subsequent resolution of the same
now-cleared state returns anonymous with no further error; a subsequent
`GET /user` on the same cookie yields 202 anonymous, not the old user. -/
theorem staleSession_then_anonymous
    (db : UserDB) (c : ConnState) (uid : Nat)
    (hbound : (attachSession c).user_id = some uid)
    (hmiss : dbLoad db uid = none) :
    (_LoadLoggedInUser db c).1 = Except.error staleMsg ∧
    _LoadLoggedInUser db (_LoadLoggedInUser db c).2 =
      (Except.ok none, (_LoadLoggedInUser db c).2) ∧
    (GetUser db (_LoadLoggedInUser db c).2).1 =
      HandlerResult.response 202 (Body.messageJson "user not logged in") := by
  have hstep : _LoadLoggedInUser db c = (Except.error staleMsg, DeleteSession c) :=
    load_eq_of_stale db c uid hbound hmiss
  have hanon : (attachSession (DeleteSession c)).user_id = none := by
    simp [attachSession, DeleteSession, emptySession]
  have hre : _LoadLoggedInUser db (DeleteSession c) =
      (Except.ok none, DeleteSession c) :=
    load_eq_of_anon db _ hanon
  refine ⟨by simp [hstep], ?_, ?_⟩
  · rw [hstep]
    exact hre
  · rw [hstep]
    simp [GetUser, hre]

/-- Witness for C3: session bound to uid 42, collaborator without record
42. -/
theorem staleSession_then_anonymous_witness :
    let c : ConnState :=
      { store := some { user_id := some 42, cookie := { maxAge := none } },
        cookieCleared := false }
    let db : UserDB := [⟨1, "a@x.com", "A", "B"⟩]
    (_LoadLoggedInUser db c).1 = Except.error staleMsg ∧
    _LoadLoggedInUser db (_LoadLoggedInUser db c).2 =
      (Except.ok none, (_LoadLoggedInUser db c).2) ∧
    (GetUser db (_LoadLoggedInUser db c).2).1 =
      HandlerResult.response 202 (Body.messageJson "user not logged in") :=
  staleSession_then_anonymous _ _ 42 (by rfl) (by rfl)

/-- C8: `GET /user` responds 200 with the resolved user's identity JSON
when the resolver returns a user, and 202 with a message object when the
resolver returns anonymous. -/
theorem getUser_statuses
    (db : UserDB) (c : ConnState) :
    (∀ u c', _LoadLoggedInUser db c = (Except.ok (some u), c') →
      GetUser db c = (HandlerResult.response 200 (Body.userJson u), c')) ∧
    (∀ c', _LoadLoggedInUser db c = (Except.ok none, c') →
      GetUser db c =
        (HandlerResult.response 202 (Body.messageJson "user not logged in"), c')) := by
  constructor
  · intro u c' h
    simp [GetUser, h]
  · intro c' h
    simp [GetUser, h]

/-- Witness for C8: a logged-in state gets 200 with its user, an anonymous
state gets 202. -/
theorem getUser_statuses_witness :
    GetUser [⟨7, "u@x.com", "U", "V"⟩]
        { store := some { user_id := some 7, cookie := { maxAge := none } },
          cookieCleared := false } =
      (HandlerResult.response 200 (Body.userJson ⟨7, "u@x.com", "U", "V"⟩),
        { store := some { user_id := some 7, cookie := { maxAge := none } },
          cookieCleared := false }) ∧
    GetUser [] { store := none, cookieCleared := false } =
      (HandlerResult.response 202 (Body.messageJson "user not logged in"),
        { store := none, cookieCleared := false }) :=
  ⟨(getUser_statuses _ _).1 _ _ (by rfl), (getUser_statuses _ _).2 _ (by rfl)⟩

/-- C4: on successful self-signup, `rememberMe = false` leaves the session
cookie with no explicit `maxAge`, while `rememberMe = true` with a
configured duration of 7 days sets `maxAge` to exactly
`7*24*60*60*1000 = 604800000` ms. -/
theorem createUser_rememberMe_maxAge
    (cfg : SessionConfig) (db : UserDB) (body : SignupBody) (newId : Nat)
    (c : ConnState)
    (hanon : (attachSession c).user_id = none)
    (hage : (attachSession c).cookie.maxAge = none)
    (hfresh : db.any (fun u => u.email == body.email) = false) :
    ∃ s, (CreateUser cfg db none body newId c).2.2.store = some s ∧
      s.user_id = some newId ∧
      s.cookie.maxAge =
        (if body.rememberMe then some (cfg.maxAgeDays * 24 * 60 * 60 * 1000)
         else none) ∧
      (body.rememberMe = true → cfg.maxAgeDays = 7 →
        s.cookie.maxAge = some 604800000) := by
  have hload := load_eq_of_anon db c hanon
  cases hrm : body.rememberMe with
  | false =>
    refine ⟨{ attachSession c with user_id := some newId }, ?_, ?_, ?_, ?_⟩
    · simp [CreateUser, hload, dbCreate, hfresh, hrm]
    · rfl
    · simpa [hrm] using hage
    · intro h
      exact absurd h (by simp [hrm])
  | true =>
    refine ⟨{ attachSession c with
                user_id := some newId,
                cookie := { (attachSession c).cookie with
                              maxAge :=
                                some (cfg.maxAgeDays * 24 * 60 * 60 * 1000) } },
      ?_, ?_, ?_, ?_⟩
    · simp [CreateUser, hload, dbCreate, hfresh, hrm]
    · rfl
    · simp [hrm]
    · intro _ h7
      simp [h7]

/-- Witness for C4 at a concrete signup: empty collaborator, fresh
anonymous session, `rememberMe = true`, 7-day duration. -/
theorem createUser_rememberMe_maxAge_witness :
    ∃ s, (CreateUser { maxAgeDays := 7 } [] none
        { firstName := "A", lastName := "", email := "a@x.com",
          password := "p", rememberMe := true } 1
        { store := none, cookieCleared := false }).2.2.store = some s ∧
      s.user_id = some 1 ∧
      s.cookie.maxAge =
        (if true then some (7 * 24 * 60 * 60 * 1000) else none) ∧
      (true = true → 7 = 7 → s.cookie.maxAge = some 604800000) :=
  createUser_rememberMe_maxAge { maxAgeDays := 7 } [] _ 1 _
    (by rfl) (by rfl) (by rfl)

/-- C5: when the request's session already resolves to a logged-in user,
`POST /users` leaves the acting session entirely unchanged — the `user_id`
binding and cookie `maxAge` are not touched by creating another account,
whether creation succeeds or conflicts. -/
theorem createUser_loggedIn_preserves_session
    (cfg : SessionConfig) (db : UserDB) (body : SignupBody) (newId : Nat)
    (c : ConnState) (uid : Nat) (u : UserObject)
    (hb : (attachSession c).user_id = some uid)
    (hf : dbLoad db uid = some u) :
    (CreateUser cfg db none body newId c).2.2 = c := by
  have hload := load_eq_of_found db c uid u hb hf
  cases hcr : dbCreate db body.email body.firstName body.lastName newId with
  | none => simp [CreateUser, hload, hcr]
  | some p => simp [CreateUser, hload, hcr]

/-- Witness for C5: a logged-in session creating a second account keeps its
own state. -/
theorem createUser_loggedIn_preserves_session_witness :
    (CreateUser { maxAgeDays := 7 } [⟨3, "me@x.com", "M", "E"⟩] none
        { firstName := "B", lastName := "", email := "b@x.com",
          password := "q", rememberMe := true } 4
        { store := some { user_id := some 3, cookie := { maxAge := none } },
          cookieCleared := false }).2.2 =
      { store := some { user_id := some 3, cookie := { maxAge := none } },
        cookieCleared := false } :=
  createUser_loggedIn_preserves_session _ _ _ 4 _ 3 ⟨3, "me@x.com", "M", "E"⟩
    (by rfl) (by rfl)

/-- C6: a signup with no existing account for the email returns 201 and
binds the session to the new id; repeating the same signup returns 409 and
leaves the collaborator table and the session state completely unchanged. -/
theorem signup_then_duplicate
    (cfg : SessionConfig) (db : UserDB) (body : SignupBody) (newId : Nat)
    (c : ConnState)
    (hanon : (attachSession c).user_id = none)
    (hfresh : db.any (fun u => u.email == body.email) = false)
    (hid : ∀ v ∈ db, v.id ≠ newId) :
    (CreateUser cfg db none body newId c).1 =
      HandlerResult.response 201
        (Body.userJson ⟨newId, body.email, body.firstName, body.lastName⟩) ∧
    (∃ s, (CreateUser cfg db none body newId c).2.2.store = some s ∧
      s.user_id = some newId) ∧
    ∀ newId2,
      CreateUser cfg (CreateUser cfg db none body newId c).2.1 none body newId2
          (CreateUser cfg db none body newId c).2.2 =
        (HandlerResult.response 409 (Body.messageJson "user already exists"),
          (CreateUser cfg db none body newId c).2.1,
          (CreateUser cfg db none body newId c).2.2) := by
  have hload := load_eq_of_anon db c hanon
  have hcr : dbCreate db body.email body.firstName body.lastName newId =
      some (db ++ [⟨newId, body.email, body.firstName, body.lastName⟩],
        ⟨newId, body.email, body.firstName, body.lastName⟩) := by
    simp [dbCreate, hfresh]
  have h1 : ∃ s, CreateUser cfg db none body newId c =
      (HandlerResult.response 201
          (Body.userJson ⟨newId, body.email, body.firstName, body.lastName⟩),
        db ++ [⟨newId, body.email, body.firstName, body.lastName⟩],
        { c with store := some s }) ∧ s.user_id = some newId := by
    cases hrm : body.rememberMe with
    | false =>
      refine ⟨{ attachSession c with user_id := some newId }, ?_, rfl⟩
      simp [CreateUser, hload, hcr, hrm]
    | true =>
      refine ⟨{ attachSession c with
                  user_id := some newId,
                  cookie := { (attachSession c).cookie with
                                maxAge :=
                                  some (cfg.maxAgeDays * 24 * 60 * 60 * 1000) } },
        ?_, rfl⟩
      simp [CreateUser, hload, hcr, hrm]
  obtain ⟨s, hrun, hs⟩ := h1
  refine ⟨by simp [hrun], ⟨s, by simp [hrun], hs⟩, ?_⟩
  intro newId2
  rw [hrun]
  have hb2 : (attachSession { c with store := some s }).user_id = some newId := by
    simp [attachSession, hs]
  have hfind :
      dbLoad (db ++ [⟨newId, body.email, body.firstName, body.lastName⟩]) newId =
        some ⟨newId, body.email, body.firstName, body.lastName⟩ := by
    have hids : ∀ v ∈ db,
        v.id ≠ (⟨newId, body.email, body.firstName, body.lastName⟩ :
          UserObject).id := by
      intro v hv
      simpa using hid v hv
    simpa using dbLoad_append_fresh db _ hids
  have hload2 :=
    load_eq_of_found (db ++ [⟨newId, body.email, body.firstName, body.lastName⟩])
      { c with store := some s } newId _ hb2 hfind
  have hdup :
      dbCreate (db ++ [⟨newId, body.email, body.firstName, body.lastName⟩])
        body.email body.firstName body.lastName newId2 = none := by
    simp [dbCreate, List.any_append]
  simp [CreateUser, hload2, hdup]

/-- Witness for C6 at the spec's scenario input. -/
theorem signup_then_duplicate_witness :
    (CreateUser { maxAgeDays := 7 } [] none
        { firstName := "A", lastName := "", email := "a@x.com",
          password := "p", rememberMe := false } 1
        { store := none, cookieCleared := false }).1 =
      HandlerResult.response 201 (Body.userJson ⟨1, "a@x.com", "A", ""⟩) ∧
    (∃ s, (CreateUser { maxAgeDays := 7 } [] none
        { firstName := "A", lastName := "", email := "a@x.com",
          password := "p", rememberMe := false } 1
        { store := none, cookieCleared := false }).2.2.store = some s ∧
      s.user_id = some 1) ∧
    ∀ newId2,
      CreateUser { maxAgeDays := 7 }
          (CreateUser { maxAgeDays := 7 } [] none
            { firstName := "A", lastName := "", email := "a@x.com",
              password := "p", rememberMe := false } 1
            { store := none, cookieCleared := false }).2.1 none
          { firstName := "A", lastName := "", email := "a@x.com",
            password := "p", rememberMe := false } newId2
          (CreateUser { maxAgeDays := 7 } [] none
            { firstName := "A", lastName := "", email := "a@x.com",
              password := "p", rememberMe := false } 1
            { store := none, cookieCleared := false }).2.2 =
        (HandlerResult.response 409 (Body.messageJson "user already exists"),
          (CreateUser { maxAgeDays := 7 } [] none
            { firstName := "A", lastName := "", email := "a@x.com",
              password := "p", rememberMe := false } 1
            { store := none, cookieCleared := false }).2.1,
          (CreateUser { maxAgeDays := 7 } [] none
            { firstName := "A", lastName := "", email := "a@x.com",
              password := "p", rememberMe := false } 1
            { store := none, cookieCleared := false }).2.2) :=
  signup_then_duplicate { maxAgeDays := 7 } [] _ 1 _
    (by rfl) (by rfl) (by intro v hv; cases hv)

/-- C7: for `GET /user/:id` and `DELETE /user/:id`, an unresolved identity
yields 401; with a resolved identity, a parameter rejected by validation
yields 400, an absent target id yields 404, and otherwise the operation
succeeds with 200 and the target user. -/
theorem userById_routes_statuses
    (db : UserDB) (s : String) (c : ConnState) :
    (∀ c', _LoadLoggedInUser db c = (Except.ok none, c') →
      (GetUserById db s c).1 =
        HandlerResult.response 401 (Body.messageJson "logged in user required") ∧
      (DeleteUserById db s c).1 =
        HandlerResult.response 401 (Body.messageJson "logged in user required")) ∧
    (∀ u c', _LoadLoggedInUser db c = (Except.ok (some u), c') →
      (∀ m, ValidateNumber (parseIntJS s) = some m →
        (GetUserById db s c).1 = HandlerResult.response 400 (Body.messageJson m) ∧
        (DeleteUserById db s c).1 =
          HandlerResult.response 400 (Body.messageJson m)) ∧
      (ValidateNumber (parseIntJS s) = none →
        (dbLoadNum db (parseIntJS s) = none →
          (GetUserById db s c).1 = HandlerResult.response 404 Body.empty ∧
          (DeleteUserById db s c).1 = HandlerResult.response 404 Body.empty) ∧
        (∀ t, dbLoadNum db (parseIntJS s) = some t →
          (GetUserById db s c).1 = HandlerResult.response 200 (Body.userJson t) ∧
          (DeleteUserById db s c).1 =
            HandlerResult.response 200 (Body.userJson t)))) := by
  refine ⟨?_, ?_⟩
  · intro c' h
    exact ⟨by simp [GetUserById, h], by simp [DeleteUserById, h]⟩
  · intro u c' h
    refine ⟨?_, ?_⟩
    · intro m hm
      exact ⟨by simp [GetUserById, h, hm], by simp [DeleteUserById, h, hm]⟩
    · intro hv
      refine ⟨?_, ?_⟩
      · intro hmiss
        have hd : dbDeleteNum db (parseIntJS s) = none := by
          cases hp : parseIntJS s with
          | none => simp [dbDeleteNum]
          | some n =>
            have hln : dbLoadInt db n = none := by
              simpa [dbLoadNum, hp] using hmiss
            simp [dbDeleteNum, dbDelete_eq_map, hln]
        exact ⟨by simp [GetUserById, h, hv, hmiss],
          by simp [DeleteUserById, h, hv, hd]⟩
      · intro t ht
        have hd : ∃ db', dbDeleteNum db (parseIntJS s) = some (db', t) := by
          cases hp : parseIntJS s with
          | none => simp [dbLoadNum, hp] at ht
          | some n =>
            have hln : dbLoadInt db n = some t := by
              simpa [dbLoadNum, hp] using ht
            refine ⟨db.filter (fun v => !((v.id : Int) == n)), ?_⟩
            simp [dbDeleteNum, dbDelete_eq_map, hln]
        obtain ⟨db', hd⟩ := hd
        exact ⟨by simp [GetUserById, h, hv, ht],
          by simp [DeleteUserById, h, hv, hd]⟩

/-- Witness for C7: an anonymous request gets 401 on both routes; an
authenticated request with a valid present id gets 200 with the target. -/
theorem userById_routes_statuses_witness :
    ((GetUserById [⟨5, "e@x.com", "F", "L"⟩] "5"
        { store := none, cookieCleared := false }).1 =
      HandlerResult.response 401 (Body.messageJson "logged in user required") ∧
      (DeleteUserById [⟨5, "e@x.com", "F", "L"⟩] "5"
        { store := none, cookieCleared := false }).1 =
      HandlerResult.response 401 (Body.messageJson "logged in user required")) ∧
    ((GetUserById [⟨5, "e@x.com", "F", "L"⟩] "5"
        { store := some { user_id := some 5, cookie := { maxAge := none } },
          cookieCleared := false }).1 =
      HandlerResult.response 200 (Body.userJson ⟨5, "e@x.com", "F", "L"⟩) ∧
      (DeleteUserById [⟨5, "e@x.com", "F", "L"⟩] "5"
        { store := some { user_id := some 5, cookie := { maxAge := none } },
          cookieCleared := false }).1 =
      HandlerResult.response 200 (Body.userJson ⟨5, "e@x.com", "F", "L"⟩)) :=
  ⟨(userById_routes_statuses [⟨5, "e@x.com", "F", "L"⟩] "5"
      { store := none, cookieCleared := false }).1
      { store := none, cookieCleared := false } (by rfl),
   (((userById_routes_statuses [⟨5, "e@x.com", "F", "L"⟩] "5"
        { store := some { user_id := some 5, cookie := { maxAge := none } },
          cookieCleared := false }).2 ⟨5, "e@x.com", "F", "L"⟩
        { store := some { user_id := some 5, cookie := { maxAge := none } },
          cookieCleared := false } (by rfl)).2 (by rfl)).2
      ⟨5, "e@x.com", "F", "L"⟩ (by rfl)⟩

/-- C9: for every configuration, constructing a `SessionManager` throws a
`ReferenceError` evaluating the bare call `_createStore()` — the identifier
is not in lexical scope — so construction fails before any store is
attached and never completes normally. -/
theorem sessionManagerConstructor_always_fails :
    ∀ ty : StoreType,
      SessionManagerConstructor ty =
        Except.error ("ReferenceError: _createStore is not defined",
          { sessionConfigSet := true, store := none, middlewareSet := false }) ∧
      ∀ st : SMState, SessionManagerConstructor ty ≠ Except.ok st := by
  intro ty
  refine ⟨rfl, ?_⟩
  intro st h
  rw [show SessionManagerConstructor ty =
      Except.error ("ReferenceError: _createStore is not defined",
        { sessionConfigSet := true, store := none, middlewareSet := false })
    from rfl] at h
  exact Except.noConfusion h

/-- Witness for C9 at the memorystore configuration. -/
theorem sessionManagerConstructor_always_fails_witness :
    SessionManagerConstructor StoreType.memorystore =
      Except.error ("ReferenceError: _createStore is not defined",
        { sessionConfigSet := true, store := none, middlewareSet := false }) :=
  (sessionManagerConstructor_always_fails StoreType.memorystore).1

/-- C10: the id parameter is `parseInt`-ed before validation, so a
parameter with a leading integer (such as "42abc") is accepted and treated
as that integer id, and the 400 branch is taken exactly when the parse
yields `NaN`. -/
theorem parseInt_before_validation_behavior
    (db : UserDB) (idParam : String) (c : ConnState) :
    parseIntJS "42abc" = some 42 ∧
    (∀ u c', _LoadLoggedInUser db c = (Except.ok (some u), c') →
      (((GetUserById db idParam c).1 =
          HandlerResult.response 400 (Body.messageJson "invalid number") ↔
        parseIntJS idParam = none) ∧
       ((DeleteUserById db idParam c).1 =
          HandlerResult.response 400 (Body.messageJson "invalid number") ↔
        parseIntJS idParam = none)) ∧
      (∀ n, parseIntJS idParam = some n →
        (GetUserById db idParam c).1 =
          (match dbLoadInt db n with
            | none => HandlerResult.response 404 Body.empty
            | some t => HandlerResult.response 200 (Body.userJson t)))) := by
  refine ⟨by rfl, ?_⟩
  intro u c' h
  refine ⟨⟨?_, ?_⟩, ?_⟩
  · cases hp : parseIntJS idParam with
    | none => simp [GetUserById, h, ValidateNumber, hp]
    | some n =>
      cases hl : dbLoadInt db n with
      | none => simp [GetUserById, h, ValidateNumber, hp, dbLoadNum, hl]
      | some t => simp [GetUserById, h, ValidateNumber, hp, dbLoadNum, hl]
  · cases hp : parseIntJS idParam with
    | none => simp [DeleteUserById, h, ValidateNumber, hp]
    | some n =>
      cases hd : dbDelete db n with
      | none => simp [DeleteUserById, h, ValidateNumber, hp, dbDeleteNum, hd]
      | some p => simp [DeleteUserById, h, ValidateNumber, hp, dbDeleteNum, hd]
  · intro n hp
    cases hl : dbLoadInt db n with
    | none => simp [GetUserById, h, ValidateNumber, hp, dbLoadNum, hl]
    | some t => simp [GetUserById, h, ValidateNumber, hp, dbLoadNum, hl]

/-- Witness for C10: an authenticated request for "/user/42abc" against a
collaborator holding user 42 succeeds as if the id were 42. -/
theorem parseInt_before_validation_behavior_witness :
    parseIntJS "42abc" = some 42 ∧
    (GetUserById [⟨42, "z@x.com", "Z", "Z"⟩] "42abc"
        { store := some { user_id := some 42, cookie := { maxAge := none } },
          cookieCleared := false }).1 =
      HandlerResult.response 200 (Body.userJson ⟨42, "z@x.com", "Z", "Z"⟩) :=
  ⟨(parseInt_before_validation_behavior [⟨42, "z@x.com", "Z", "Z"⟩] "42abc"
      { store := some { user_id := some 42, cookie := { maxAge := none } },
        cookieCleared := false }).1,
   ((parseInt_before_validation_behavior [⟨42, "z@x.com", "Z", "Z"⟩] "42abc"
      { store := some { user_id := some 42, cookie := { maxAge := none } },
        cookieCleared := false }).2 ⟨42, "z@x.com", "Z", "Z"⟩
      { store := some { user_id := some 42, cookie := { maxAge := none } },
        cookieCleared := false } (by rfl)).2 42 (by rfl)⟩

end UserService
